import Mathlib

/-!
Verification of the gateway/supervisor subsystem of sms-over-xmpp.

The development shallowly embeds `src/component.go`: the `Component`
structure, the `Main` supervisor loop, and the Gateway dispatch loop of
`runGatewayProcess`.  Helper routines that live in other files of the
repository (`sms2xmpp`, `Component.smsDelivered`, `xmpp2sms`, the HTTP and
XMPP process bodies, `Config`) are modelled from the specification, as
marked on each definition.

Go channels are modelled by identifiers (`Nat`) handed out by an
allocation counter, so that channel identity (which incarnation reads
which queue) is observable.  A Go `panic` in a goroutine aborts the whole
program; the embedding records this as the control outcome
`Control.panicProgram`, distinct from `Control.terminateGateway` (the
`return` path, which merely closes the health channel so the supervisor
restarts the task).
-/

namespace SmsOverXmpp

/-- Go `error` values visible to the dispatch loop.  `ignoreMessage` is the
distinguished sentinel `ErrIgnoreMessage` of `component.go`; every other
error is carried as its message string. -/
inductive GoError where
  | ignoreMessage : GoError
  | other : String → GoError
deriving DecidableEq, Repr

/-- The sentinel declared at the top of `component.go`: returned to
indicate that a message should be ignored, as if it never happened. -/
def ErrIgnoreMessage : GoError := GoError.ignoreMessage

/-- Message text used when the dispatch loop logs a conversion error. -/
def GoError.message : GoError → String
  | GoError.ignoreMessage => "ignore this message"
  | GoError.other s => s

/-- An XMPP stanza (`xco.Message`) as the Gateway treats it: a value type
with addressing, body and the receipt-related flags. -/
structure XcoMessage where
  fromAddr : String
  toAddr : String
  body : String
  receiptRequested : Bool
  isReceiptAck : Bool
deriving DecidableEq, Repr

/-- An inbound SMS as delivered by the provider webhook. -/
structure Sms where
  fromNum : String
  toNum : String
  body : String
deriving DecidableEq, Repr

/-- Modelled from the spec: the status-code constants (`smsDelivered` etc.)
are declared in a repository file that is not under `src/`; only equality
with `smsDelivered` is ever tested by `component.go`, so the constant is
fixed as `0` and every other numeric code is outside the enumerated set. -/
def smsDelivered : Nat := 0

/-- The `rxSms` sum carried on the HTTP-to-gateway channel: an inbound
message or a status update, per the two concrete types matched in
`runGatewayProcess`. -/
inductive RxSms where
  | message : Sms → RxSms
  | status : String → Nat → RxSms
deriving DecidableEq, Repr

/-! ## The Delivery-Receipt Table (`Component.receiptFor`)

A Go `map[string]*xco.Message` embedded as an association list with
overwrite-on-put semantics. -/

/-- The `receiptFor` map: provider tracking identifier to pending receipt. -/
abbrev ReceiptTable : Type := List (String × XcoMessage)

/-- Remove every binding of `id` from the table. -/
def eraseKey (id : String) : ReceiptTable → ReceiptTable
  | [] => []
  | (k, v) :: t => if k = id then eraseKey id t else (k, v) :: eraseKey id t

/-- Look up the binding of `id`, first match wins. -/
def lookupR (id : String) : ReceiptTable → Option XcoMessage
  | [] => none
  | (k, v) :: t => if k = id then some v else lookupR id t

/-- Go map assignment `receiptFor[id] = m`: overwrite any prior binding. -/
def putR (t : ReceiptTable) (id : String) (m : XcoMessage) : ReceiptTable :=
  (id, m) :: eraseKey id t

/-- Modelled from the spec: the table operation `takeIfPresent(id)`, an
atomic find-and-remove under `receiptForMutex` (the method bodies using the
mutex are not under `src/`).  Returns the stored receipt, if any, and the
table without it. -/
def takeIfPresent (t : ReceiptTable) (id : String) :
    Option XcoMessage × ReceiptTable :=
  (lookupR id t, eraseKey id t)

/-! ## Gateway handlers

`sms2xmpp`, `Component.smsDelivered` and `xmpp2sms` live in repository
files that are not under `src/`; they are modelled from the dispatch rules
of the specification.  The outcome of the configuration-supplied
translation step and of the provider send are inputs (oracles) carried on
the event itself, so each handler is a total function. -/

/-- Outcome of the configured XMPP-to-SMS translation layer: either the
phone-number addressing and body for the outbound send, or an error, which
may be the ignore sentinel. -/
inductive XlatOut where
  | ok : String → String → String → XlatOut
  | err : GoError → XlatOut
deriving DecidableEq, Repr

/-- Outcome of the provider send capability: a tracking identifier or an
error. -/
inductive SendOut where
  | ok : String → SendOut
  | err : GoError → SendOut
deriving DecidableEq, Repr

/-- Outcome of the configured SMS-to-XMPP translation layer: a translated
stanza or an error, which may be the ignore sentinel. -/
inductive SmsXlatOut where
  | ok : XcoMessage → SmsXlatOut
  | err : GoError → SmsXlatOut
deriving DecidableEq, Repr

/-- The receipt-acknowledgment stanza constructed for a message that
requested a receipt, addressed back to the original sender. -/
def receiptAck (m : XcoMessage) : XcoMessage :=
  { fromAddr := m.toAddr
    toAddr := m.fromAddr
    body := ""
    receiptRequested := false
    isReceiptAck := true }

/-- Modelled from the spec: `sms2xmpp` (dispatch rule 1).  Translate the
inbound SMS to an XMPP message and forward it to the XMPP Boundary's
outbound queue; the ignore sentinel drops the event silently; any other
translation error is returned as the recoverable outcome.  Returns the
stanzas forwarded to `txXmppCh` and the outcome for the reply channel. -/
def sms2xmpp (xlat : SmsXlatOut) :
    List XcoMessage × Option GoError :=
  match xlat with
  | SmsXlatOut.ok m => ([m], none)
  | SmsXlatOut.err GoError.ignoreMessage => ([], none)
  | SmsXlatOut.err e => ([], some e)

/-- Modelled from the spec: `Component.smsDelivered` (dispatch rule 2).
Atomically take the entry for the tracking identifier; if present, forward
the stored receipt to the XMPP Boundary's outbound queue; either way the
outcome is success. -/
def handleSmsDelivered (t : ReceiptTable) (id : String) :
    ReceiptTable × List XcoMessage × Option GoError :=
  match takeIfPresent t id with
  | (some m, t2) => (t2, [m], none)
  | (none, t2) => (t2, [], none)

/-- Modelled from the spec: `xmpp2sms` (dispatch rule 3).  Translate the
inbound XMPP message to an outbound SMS send; the ignore sentinel from the
translation layer drops the message and returns success; any other
translation error, and any send error, is returned.  On a successful send
whose originating message requested a receipt, insert a fresh
receipt-acknowledgment into the table keyed by the tracking identifier. -/
def xmpp2sms (t : ReceiptTable) (m : XcoMessage) (xlat : XlatOut)
    (send : SendOut) : ReceiptTable × Option GoError :=
  match xlat with
  | XlatOut.err GoError.ignoreMessage => (t, none)
  | XlatOut.err e => (t, some e)
  | XlatOut.ok _ _ _ =>
    match send with
    | SendOut.err e => (t, some e)
    | SendOut.ok trackingId =>
      if m.receiptRequested then (putR t trackingId (receiptAck m), none)
      else (t, none)

/-! ## The Gateway dispatch loop (`runGatewayProcess`, component.go 84-108) -/

/-- How one loop iteration ends: keep looping, `return` out of the
goroutine (health channel closes, the supervisor restarts the Gateway), or
`log.Panicf` (the unrecovered panic aborts the whole program). -/
inductive Control where
  | cont : Control
  | terminateGateway : Control
  | panicProgram : Control
deriving DecidableEq, Repr

/-- Observable effects of one iteration of the Gateway loop. -/
structure StepResult where
  receiptFor : ReceiptTable
  errChPosts : List (Option GoError)
  txXmpp : List XcoMessage
  errorLogs : List String
  control : Control
deriving DecidableEq, Repr

/-- An event served by one turn of the Gateway loop's select: an item from
the SMS-event channel or one from the inbound-XMPP channel.  The oracle
outcomes of the translation and send collaborators ride on the event. -/
inductive GwEvent where
  | smsMessage : Sms → SmsXlatOut → GwEvent
  | smsStatus : String → Nat → GwEvent
  | xmppMsg : XcoMessage → XlatOut → SendOut → GwEvent
deriving DecidableEq, Repr

/-- One iteration of the Gateway dispatch loop of `runGatewayProcess`:
an `rxSmsMessage` posts the `sms2xmpp` outcome on the event's reply
channel; an `rxSmsStatus` with code `smsDelivered` posts the
`smsDelivered` outcome; any other status code panics; an inbound XMPP
message runs `xmpp2sms` and, on a non-nil error, logs it and returns,
terminating the Gateway task. -/
def gatewayStep (t : ReceiptTable) (ev : GwEvent) : StepResult :=
  match ev with
  | GwEvent.smsMessage _ xlat =>
    let r := sms2xmpp xlat
    { receiptFor := t, errChPosts := [r.2], txXmpp := r.1,
      errorLogs := [], control := Control.cont }
  | GwEvent.smsStatus id code =>
    if code = smsDelivered then
      let r := handleSmsDelivered t id
      { receiptFor := r.1, errChPosts := [r.2.2], txXmpp := r.2.1,
        errorLogs := [], control := Control.cont }
    else
      { receiptFor := t, errChPosts := [], txXmpp := [],
        errorLogs := ["unexpected SMS status: " ++ toString code],
        control := Control.panicProgram }
  | GwEvent.xmppMsg m xlat send =>
    let r := xmpp2sms t m xlat send
    match r.2 with
    | none =>
      { receiptFor := r.1, errChPosts := [], txXmpp := [],
        errorLogs := [], control := Control.cont }
    | some e =>
      { receiptFor := r.1, errChPosts := [], txXmpp := [],
        errorLogs := ["ERROR: converting XMPP to SMS: " ++ e.message],
        control := Control.terminateGateway }

/-- Program-level service of a stream of Gateway events.  A
`terminateGateway` closes the health channel: the supervisor restarts the
Gateway goroutine on the same `Component`, so the table persists and
service continues.  A `panicProgram` aborts the whole process: no later
event is ever served. -/
def serveEvents (t : ReceiptTable) : List GwEvent → List StepResult
  | [] => []
  | e :: es =>
    let r := gatewayStep t e
    match r.control with
    | Control.panicProgram => [r]
    | _ => r :: serveEvents r.receiptFor es

/-! ## Main and the supervisor loop (`Main`, component.go 49-75)

Go channels are identified by the order in which `make(chan ...)` runs; a
`ChanAlloc` counter hands out fresh identifiers, so "the same channel" is
"the same identifier". -/

/-- Channel allocation state: the identifier the next `make(chan)` gets. -/
structure ChanAlloc where
  next : Nat
deriving DecidableEq, Repr

/-- Allocate a fresh channel. -/
def newChan (a : ChanAlloc) : Nat × ChanAlloc :=
  (a.next, { next := a.next + 1 })

/-- Modelled from the spec: the abstract `Config` capability set.  Only
provider selection matters to the claims; `SmsProvider()` either yields a
provider or fails, deterministically in the configuration. -/
structure Config where
  smsProvider : Option String
deriving DecidableEq, Repr

/-- The long-lived fields of `Component` set up at the top of `Main`:
the delivery-receipt table and the three handoff channels. -/
structure Component where
  receiptFor : ReceiptTable
  rxSmsCh : Nat
  rxXmppCh : Nat
  txXmppCh : Nat
deriving DecidableEq, Repr

/-- The initialization in `Main` (component.go 50-54): an empty
`receiptFor` map and three freshly made channels on one `Component`. -/
def mainInit (a : ChanAlloc) : Component × ChanAlloc :=
  let (c1, a1) := newChan a
  let (c2, a2) := newChan a1
  let (c3, a3) := newChan a2
  ({ receiptFor := [], rxSmsCh := c1, rxXmppCh := c2, txXmppCh := c3 }, a3)

/-- One incarnation of the Gateway goroutine: the channels it selects on
and its health channel.  `runGatewayProcess` captures `sc.rxSmsCh` and
`sc.rxXmppCh` and makes only a fresh `healthCh`. -/
structure GatewayIncarnation where
  rxSmsCh : Nat
  rxXmppCh : Nat
  healthCh : Nat
deriving DecidableEq, Repr

/-- `runGatewayProcess` (component.go 79-111): make a fresh health
channel and start the loop on the component's existing channels.  The
component itself — in particular `receiptFor` — is read, never written. -/
def runGatewayProcess (sc : Component) (a : ChanAlloc) :
    GatewayIncarnation × Component × ChanAlloc :=
  let (h, a1) := newChan a
  ({ rxSmsCh := sc.rxSmsCh, rxXmppCh := sc.rxXmppCh, healthCh := h }, sc, a1)

/-- One incarnation of the HTTP process: the SMS-event channel it feeds,
the provider it selected, and its health channel. -/
structure HttpIncarnation where
  rxSmsCh : Nat
  provider : String
  healthCh : Nat
deriving DecidableEq, Repr

/-- `runHttpProcess` (component.go 114-135): select an SMS provider from
the configuration — on failure the panic aborts the program (`none`) —
then start the HTTP process feeding `sc.rxSmsCh`. -/
def runHttpProcess (config : Config) (sc : Component) (a : ChanAlloc) :
    Option (HttpIncarnation × ChanAlloc) :=
  match config.smsProvider with
  | none => none
  | some p =>
    let (h, a1) := newChan a
    some ({ rxSmsCh := sc.rxSmsCh, provider := p, healthCh := h }, a1)

/-- One incarnation of the XMPP process: the gateway-facing channels it
uses and its health channel. -/
structure XmppIncarnation where
  gatewayTx : Nat
  gatewayRx : Nat
  healthCh : Nat
deriving DecidableEq, Repr

/-- `runXmppProcess` (component.go 138-149): start the XMPP process on
the component's existing `txXmppCh` and `rxXmppCh`. -/
def runXmppProcess (sc : Component) (a : ChanAlloc) :
    XmppIncarnation × ChanAlloc :=
  let (h, a1) := newChan a
  ({ gatewayTx := sc.txXmppCh, gatewayRx := sc.rxXmppCh, healthCh := h }, a1)

/-- The three supervised tasks. -/
inductive TaskName where
  | gateway : TaskName
  | http : TaskName
  | xmpp : TaskName
deriving DecidableEq, Repr

/-- The supervisor's view of the running system: the shared component and
the current incarnation of each task. -/
structure SupState where
  sc : Component
  gatewayInc : GatewayIncarnation
  httpInc : HttpIncarnation
  xmppInc : XmppIncarnation
  alloc : ChanAlloc
deriving DecidableEq, Repr

/-- The startup phase of `Main` (component.go 49-59): initialize the
component, then start the Gateway, the XMPP process, and the HTTP process,
in that order.  Returns the tasks that were started, and the running
system unless provider selection panicked. -/
def mainStartup (config : Config) : List TaskName × Option SupState :=
  let (sc, a0) := mainInit { next := 0 }
  let (g, _, a1) := runGatewayProcess sc a0
  let (x, a2) := runXmppProcess sc a1
  match runHttpProcess config sc a2 with
  | none => ([TaskName.gateway, TaskName.xmpp], none)
  | some (h, a3) =>
    ([TaskName.gateway, TaskName.xmpp, TaskName.http],
     some { sc := sc, gatewayInc := g, httpInc := h, xmppInc := x, alloc := a3 })

/-- One turn of the supervisor select loop (component.go 61-74): the named
task's health channel fired, so restart it — sleeping one second first for
the XMPP task — on the same component.  Returns the new state and the
seconds slept, or `none` when restarting the HTTP process panics. -/
def superviseStep (config : Config) (st : SupState) (died : TaskName) :
    Option (SupState × Nat) :=
  match died with
  | TaskName.gateway =>
    let (g, _, a1) := runGatewayProcess st.sc st.alloc
    some ({ st with gatewayInc := g, alloc := a1 }, 0)
  | TaskName.http =>
    match runHttpProcess config st.sc st.alloc with
    | none => none
    | some (h, a1) => some ({ st with httpInc := h, alloc := a1 }, 0)
  | TaskName.xmpp =>
    let (x, a1) := runXmppProcess st.sc st.alloc
    some ({ st with xmppInc := x, alloc := a1 }, 1)

/-- The supervisor loop run against a sequence of task deaths: restart
after each one, collecting the sleep taken before each restart. -/
def superviseRun (config : Config) (st : SupState) :
    List TaskName → Option (SupState × List Nat)
  | [] => some (st, [])
  | d :: ds =>
    match superviseStep config st d with
    | none => none
    | some (st1, delay) =>
      match superviseRun config st1 ds with
      | none => none
      | some (st2, delays) => some (st2, delay :: delays)

/-! ## Trace predicates for the Delivery-Receipt Table invariant -/

/-- Does this event perform a successful outbound SMS send, with tracking
identifier `id`, whose originating XMPP message requested a receipt? -/
def sendsReceiptSms (e : GwEvent) (id : String) : Bool :=
  match e with
  | GwEvent.xmppMsg m (XlatOut.ok _ _ _) (SendOut.ok tid) =>
    m.receiptRequested && (tid == id)
  | _ => false

/-- Does this event observe a Delivered status for tracking identifier
`id`? -/
def observesDelivered (e : GwEvent) (id : String) : Bool :=
  match e with
  | GwEvent.smsStatus i code => (i == id) && (code == smsDelivered)
  | _ => false

/-- Is this event an inbound XMPP message? -/
def isXmppEvent : GwEvent → Bool
  | GwEvent.xmppMsg _ _ _ => true
  | _ => false

/-- Is this event a Status Update with code Delivered? -/
def isDeliveredStatus : GwEvent → Bool
  | GwEvent.smsStatus _ code => code == smsDelivered
  | _ => false

/-- After this event trace, is a receipt for `id` still pending: some
event sent a receipt-requesting SMS with tracking identifier `id` and no
later event observed a Delivered status for it? -/
def pendingReceipt (id : String) : List GwEvent → Bool
  | [] => false
  | e :: es =>
    pendingReceipt id es
      || (sendsReceiptSms e id && !(es.any (fun x => observesDelivered x id)))

/-- The delivery-receipt table after the Gateway serves an event trace. -/
def tableAfter (t : ReceiptTable) : List GwEvent → ReceiptTable
  | [] => t
  | e :: es => tableAfter (gatewayStep t e).receiptFor es

/-! ## Concurrent Delivered-status processing

`receiptForMutex` serializes table access, so a batch of simultaneous
Delivered-status events executes as the atomic `takeIfPresent` operations
in some arbitrary order.  `deliveredRun` performs them in a given order
and records what each one took. -/

/-- Process a sequence of Delivered-status events against the table, each
as one atomic find-and-remove, returning the final table and the receipt
each event took. -/
def deliveredRun (t : ReceiptTable) :
    List String → ReceiptTable × List (Option XcoMessage)
  | [] => (t, [])
  | id :: ids =>
    let r := takeIfPresent t id
    let rest := deliveredRun r.2 ids
    (rest.1, r.1 :: rest.2)

/-- Every running task incarnation reads and writes the handoff channels
held on the shared `Component`: the Gateway selects on `rxSmsCh` and
`rxXmppCh`, the HTTP process feeds `rxSmsCh`, and the XMPP process uses
`txXmppCh` and `rxXmppCh`. -/
def usesMainChannels (st : SupState) : Prop :=
  st.gatewayInc.rxSmsCh = st.sc.rxSmsCh
    ∧ st.gatewayInc.rxXmppCh = st.sc.rxXmppCh
    ∧ st.httpInc.rxSmsCh = st.sc.rxSmsCh
    ∧ st.xmppInc.gatewayTx = st.sc.txXmppCh
    ∧ st.xmppInc.gatewayRx = st.sc.rxXmppCh

instance (st : SupState) : Decidable (usesMainChannels st) := by
  unfold usesMainChannels
  infer_instance

/-! ## Concrete demonstration values used by witness and counterexample
theorems -/

/-- A demonstration stanza. -/
def demoMsg : XcoMessage :=
  { fromAddr := "alice@sms.example"
    toAddr := "bob@sms.example"
    body := "Hello"
    receiptRequested := true
    isReceiptAck := false }

/-- A demonstration inbound SMS. -/
def demoSms : Sms :=
  { fromNum := "+15551230000", toNum := "+15559998888", body := "Hello" }

/-- A demonstration configuration whose provider selection succeeds. -/
def demoConfig : Config := { smsProvider := some "twilio" }

/-- A demonstration running system whose delivery-receipt table holds one
pending receipt for tracking identifier T1. -/
def demoState : SupState :=
  { sc := { receiptFor := [("T1", receiptAck demoMsg)]
            rxSmsCh := 0, rxXmppCh := 1, txXmppCh := 2 }
    gatewayInc := { rxSmsCh := 0, rxXmppCh := 1, healthCh := 3 }
    httpInc := { rxSmsCh := 0, provider := "twilio", healthCh := 5 }
    xmppInc := { gatewayTx := 2, gatewayRx := 1, healthCh := 4 }
    alloc := { next := 6 } }

/-- The running system produced by `mainStartup demoConfig`: the three
handoff channels get identifiers 0, 1, 2 and each process's health
channel follows. -/
def demoStart : SupState :=
  { sc := { receiptFor := [], rxSmsCh := 0, rxXmppCh := 1, txXmppCh := 2 }
    gatewayInc := { rxSmsCh := 0, rxXmppCh := 1, healthCh := 3 }
    httpInc := { rxSmsCh := 0, provider := "twilio", healthCh := 5 }
    xmppInc := { gatewayTx := 2, gatewayRx := 1, healthCh := 4 }
    alloc := { next := 6 } }

/-- A family of demonstration receipts, one per tracking identifier. -/
def demoReceiptFun (i : String) : XcoMessage :=
  { fromAddr := i
    toAddr := "user@example"
    body := ""
    receiptRequested := false
    isReceiptAck := true }

/-- A demonstration event trace: a receipt-requesting XMPP message whose
send returns tracking identifier T1, followed by a Delivered status for
T1. -/
def demoTrace : List GwEvent :=
  [GwEvent.xmppMsg demoMsg
     (XlatOut.ok "+15551230000" "+15559998888" "Hello") (SendOut.ok "T1"),
   GwEvent.smsStatus "T1" smsDelivered]

lemma lookupR_eraseKey (i id : String) (t : ReceiptTable) :
    lookupR id (eraseKey i t) = if i = id then none else lookupR id t := by
  induction t with
  | nil => simp [eraseKey, lookupR]
  | cons p t ih =>
    obtain ⟨k, v⟩ := p
    by_cases h1 : k = i
    · subst h1
      by_cases h2 : k = id
      · subst h2
        simp [eraseKey, lookupR, ih]
      · simp [eraseKey, lookupR, h2, ih]
    · by_cases h2 : k = id
      · subst h2
        have h3 : ¬ i = k := fun h => h1 h.symm
        simp [eraseKey, lookupR, h1, h3]
      · simp [eraseKey, lookupR, h1, h2, ih]

lemma lookupR_putR (t : ReceiptTable) (i id : String) (v : XcoMessage) :
    lookupR id (putR t i v) = if i = id then some v else lookupR id t := by
  by_cases h : i = id <;> simp [putR, lookupR, lookupR_eraseKey, h]

/-- How one Gateway step changes whether `id` has a table entry: a
receipt-requesting send with this tracking identifier creates one, a
Delivered status for it removes it, and nothing else touches it. -/
lemma lookupR_gatewayStep (t : ReceiptTable) (e : GwEvent) (id : String) :
    (lookupR id (gatewayStep t e).receiptFor).isSome
      = (sendsReceiptSms e id
          || ((lookupR id t).isSome && !(observesDelivered e id))) := by
  cases e with
  | smsMessage s xlat =>
    simp [gatewayStep, sendsReceiptSms, observesDelivered]
  | smsStatus i code =>
    by_cases h : code = smsDelivered
    · subst h
      simp only [gatewayStep, if_pos rfl, handleSmsDelivered, takeIfPresent]
      by_cases hid : i = id
      · subst hid
        cases hl : lookupR i t <;>
          simp [lookupR_eraseKey, sendsReceiptSms, observesDelivered, hl]
      · cases hl : lookupR i t <;>
          simp [lookupR_eraseKey, sendsReceiptSms, observesDelivered, hid, hl]
    · simp [gatewayStep, h, sendsReceiptSms, observesDelivered]
  | xmppMsg m xlat send =>
    cases xlat with
    | err e =>
      cases e <;>
        simp [gatewayStep, xmpp2sms, sendsReceiptSms, observesDelivered]
    | ok a b c =>
      cases send with
      | err e =>
        simp [gatewayStep, xmpp2sms, sendsReceiptSms, observesDelivered]
      | ok tid =>
        by_cases hr : m.receiptRequested
        · by_cases hid : tid = id <;>
            simp [gatewayStep, xmpp2sms, hr, lookupR_putR, hid,
              sendsReceiptSms, observesDelivered]
        · simp [gatewayStep, xmpp2sms, hr, sendsReceiptSms, observesDelivered]

lemma bool_pending_shuffle (p s x o q : Bool) :
    (p || ((s || (x && !o)) && !q)) = ((p || (s && !q)) || (x && (!o && !q))) := by
  revert p s x o q
  decide

/-- The table entry for `id` after a trace exists exactly when a receipt
is pending for `id` in the trace, or it was already present and never
delivered during the trace. -/
lemma lookupR_tableAfter (es : List GwEvent) (t : ReceiptTable) (id : String) :
    (lookupR id (tableAfter t es)).isSome
      = (pendingReceipt id es
          || ((lookupR id t).isSome
                && !(es.any (fun e => observesDelivered e id)))) := by
  induction es generalizing t with
  | nil => simp [tableAfter, pendingReceipt]
  | cons e es ih =>
    show (lookupR id (tableAfter (gatewayStep t e).receiptFor es)).isSome = _
    rw [ih, lookupR_gatewayStep]
    simp only [pendingReceipt, List.any_cons, Bool.not_or]
    exact bool_pending_shuffle (pendingReceipt id es) (sendsReceiptSms e id)
      (lookupR id t).isSome (observesDelivered e id)
      (es.any (fun x => observesDelivered x id))

lemma lookupR_map_of_mem (f : String → XcoMessage) (id : String) :
    ∀ ids : List String, id ∈ ids →
      lookupR id (ids.map (fun i => (i, f i))) = some (f id) := by
  intro ids
  induction ids with
  | nil => intro h; cases h
  | cons a t ih =>
    intro h
    by_cases ha : a = id
    · subst ha
      simp [lookupR]
    · have ht : id ∈ t := by
        cases h with
        | head => exact absurd rfl ha
        | tail _ h2 => exact h2
      simp [lookupR, ha, ih ht]

lemma eraseKey_map_of_not_mem (f : String → XcoMessage) (h : String) :
    ∀ ids : List String, h ∉ ids →
      eraseKey h (ids.map (fun i => (i, f i))) = ids.map (fun i => (i, f i)) := by
  intro ids
  induction ids with
  | nil => intro _; rfl
  | cons a t ih =>
    intro hmem
    have ha : ¬ a = h := fun hh => hmem (hh ▸ List.mem_cons_self a t)
    have ht : h ∉ t := fun hh => hmem (List.mem_cons_of_mem a hh)
    simp [eraseKey, ha, ih ht]

lemma eraseKey_map_nodup (f : String → XcoMessage) (h : String) :
    ∀ ids : List String, ids.Nodup →
      eraseKey h (ids.map (fun i => (i, f i)))
        = (ids.erase h).map (fun i => (i, f i)) := by
  intro ids
  induction ids with
  | nil => intro _; rfl
  | cons a t ih =>
    intro hnd
    rw [List.nodup_cons] at hnd
    by_cases ha : a = h
    · subst ha
      simp [eraseKey, List.erase_cons_head, eraseKey_map_of_not_mem f a t hnd.1]
    · have hba : ¬ (a == h) = true := by simp [ha]
      rw [List.erase_cons_tail]
      · simp [eraseKey, ha, ih hnd.2]
      · simp [ha]

lemma deliveredRun_perm (f : String → XcoMessage) :
    ∀ (perm ids : List String), ids.Nodup → perm.Perm ids →
      deliveredRun (ids.map (fun i => (i, f i))) perm
        = ([], perm.map (fun i => some (f i))) := by
  intro perm
  induction perm with
  | nil =>
    intro ids _ hp
    have : ids = [] := hp.symm.eq_nil
    subst this
    rfl
  | cons p ps ih =>
    intro ids hnd hp
    have hmem : p ∈ ids := hp.subset (List.mem_cons_self p ps)
    have hps : ps.Perm (ids.erase p) :=
      (List.cons_perm_iff_perm_erase.mp hp).2
    have hnd2 : (ids.erase p).Nodup := hnd.erase p
    show (let r := takeIfPresent (ids.map (fun i => (i, f i))) p
          let rest := deliveredRun r.2 ps
          (rest.1, r.1 :: rest.2)) = _
    simp only [takeIfPresent, lookupR_map_of_mem f p ids hmem,
      eraseKey_map_nodup f p ids hnd, ih (ids.erase p) hnd2 hps, List.map_cons]

/-- As long as the configuration yields a provider, every supervisor turn
restarts the dead task, sleeping one second first exactly for the XMPP
process. -/
lemma superviseStep_isSome (config : Config) (st : SupState) (d : TaskName)
    (h : config.smsProvider.isSome = true) :
    ∃ st2, superviseStep config st d
      = some (st2, if d = TaskName.xmpp then 1 else 0) := by
  cases d with
  | gateway => exact ⟨_, rfl⟩
  | http =>
    cases hp : config.smsProvider with
    | none => rw [hp] at h; cases h
    | some p =>
      refine ⟨{ st with
          httpInc := { rxSmsCh := st.sc.rxSmsCh, provider := p,
                       healthCh := st.alloc.next }
          alloc := { next := st.alloc.next + 1 } }, ?_⟩
      simp [superviseStep, runHttpProcess, hp, newChan]
  | xmpp => exact ⟨_, rfl⟩

/-- A supervisor restart never replaces the shared `Component` and keeps
every incarnation on the component's handoff channels. -/
lemma superviseStep_preserves (config : Config) (st : SupState)
    (d : TaskName) (st2 : SupState) (delay : Nat)
    (h : superviseStep config st d = some (st2, delay)) :
    st2.sc = st.sc ∧ (usesMainChannels st → usesMainChannels st2) := by
  cases d with
  | gateway =>
    simp only [superviseStep, runGatewayProcess, newChan,
      Option.some.injEq, Prod.mk.injEq] at h
    obtain ⟨h1, -⟩ := h
    subst h1
    exact ⟨rfl, fun hu => ⟨rfl, rfl, hu.2.2⟩⟩
  | http =>
    cases hp : config.smsProvider with
    | none => simp [superviseStep, runHttpProcess, hp] at h
    | some p =>
      simp only [superviseStep, runHttpProcess, hp, newChan,
        Option.some.injEq, Prod.mk.injEq] at h
      obtain ⟨h1, -⟩ := h
      subst h1
      exact ⟨rfl, fun hu => ⟨hu.1, hu.2.1, rfl, hu.2.2.2⟩⟩
  | xmpp =>
    simp only [superviseStep, runXmppProcess, newChan,
      Option.some.injEq, Prod.mk.injEq] at h
    obtain ⟨h1, -⟩ := h
    subst h1
    exact ⟨rfl, fun hu => ⟨hu.1, hu.2.1, hu.2.2.1, rfl, rfl⟩⟩

/-- Channel stability over a whole supervised run. -/
lemma superviseRun_preserves (config : Config) :
    ∀ (deaths : List TaskName) (st st2 : SupState) (ds : List Nat),
      superviseRun config st deaths = some (st2, ds) →
      st2.sc = st.sc ∧ (usesMainChannels st → usesMainChannels st2) := by
  intro deaths
  induction deaths with
  | nil =>
    intro st st2 ds h
    simp only [superviseRun, Option.some.injEq, Prod.mk.injEq] at h
    obtain ⟨h1, -⟩ := h
    subst h1
    exact ⟨rfl, id⟩
  | cons d rest ih =>
    intro st st2 ds h
    cases hs : superviseStep config st d with
    | none => rw [superviseRun, hs] at h; cases h
    | some p =>
      obtain ⟨st1, delay⟩ := p
      cases hr : superviseRun config st1 rest with
      | none => simp [superviseRun, hs, hr] at h
      | some q =>
        obtain ⟨stf, dls⟩ := q
        simp only [superviseRun, hs, hr, Option.some.injEq,
          Prod.mk.injEq] at h
        obtain ⟨h1, -⟩ := h
        subst h1
        have p1 := superviseStep_preserves config st d st1 delay hs
        have p2 := ih st1 stf dls hr
        exact ⟨p2.1.trans p1.1, fun hu => p2.2 (p1.2 hu)⟩

/-! ## Claim theorems -/

/-- C1 counterexample: restarting the Gateway task does not reset the
Delivery-Receipt Table.  From a state whose table holds an entry for T1,
the supervisor's Gateway restart yields a state whose table still holds
that entry, so the restarted Gateway does not begin with an empty
mapping. -/
theorem C1_gateway_restart_resets_table_counterexample :
    Option.map (fun p => p.1.sc.receiptFor)
        (superviseStep demoConfig demoState TaskName.gateway)
      = some [("T1", receiptAck demoMsg)]
    ∧ ([("T1", receiptAck demoMsg)] : ReceiptTable) ≠ [] :=
  ⟨rfl, by decide⟩

/-- C1 (amended): the Delivery-Receipt Table is created empty once, in
Main; restarting the Gateway task preserves the
tracking-identifier-to-receipt mapping exactly, because
`runGatewayProcess` restarts the loop on the same `Component` and never
writes `receiptFor`. -/
theorem C1_gateway_restart_preserves_table :
    (∀ a : ChanAlloc, (mainInit a).1.receiptFor = [])
    ∧ ∀ (config : Config) (st st2 : SupState) (d : Nat),
        superviseStep config st TaskName.gateway = some (st2, d) →
        st2.sc = st.sc := by
  constructor
  · intro a; rfl
  · intro config st st2 d h
    exact (superviseStep_preserves config st TaskName.gateway st2 d h).1

/-- C1 witness: the amended theorem applied to the program's initial
allocator and to a concrete Gateway restart. -/
theorem C1_witness :
    (mainInit { next := 0 }).1.receiptFor = []
    ∧ ({ demoState with
          gatewayInc := { rxSmsCh := 0, rxXmppCh := 1, healthCh := 6 }
          alloc := { next := 7 } } : SupState).sc = demoState.sc :=
  ⟨C1_gateway_restart_preserves_table.1 { next := 0 },
   C1_gateway_restart_preserves_table.2 demoConfig demoState _ 0 rfl⟩

/-- C2 counterexample: a Status Update with a code outside the enumerated
set does not leave the system serving subsequent events.  The dispatch
loop hits `log.Panicf`, whose unrecovered panic aborts the whole program:
of two queued events, only the offending one is ever served. -/
theorem C2_unknown_status_counterexample :
    (gatewayStep [] (GwEvent.smsStatus "T1" 3)).control = Control.panicProgram
    ∧ serveEvents []
        [GwEvent.smsStatus "T1" 3,
         GwEvent.smsMessage demoSms (SmsXlatOut.ok demoMsg)]
        = [gatewayStep [] (GwEvent.smsStatus "T1" 3)]
    ∧ (serveEvents []
        [GwEvent.smsStatus "T1" 3,
         GwEvent.smsMessage demoSms (SmsXlatOut.ok demoMsg)]).length = 1 :=
  ⟨rfl, rfl, rfl⟩

/-- C2 (amended): processing a Status Update whose code is outside the
enumerated set panics, aborting the entire program rather than only the
Gateway task; no subsequent event is served. -/
theorem C2_unknown_status_panics_program :
    ∀ (t : ReceiptTable) (id : String) (code : Nat) (rest : List GwEvent),
      code ≠ smsDelivered →
      (gatewayStep t (GwEvent.smsStatus id code)).control
          = Control.panicProgram
      ∧ serveEvents t (GwEvent.smsStatus id code :: rest)
          = [gatewayStep t (GwEvent.smsStatus id code)] := by
  intro t id code rest h
  constructor
  · simp [gatewayStep, h]
  · simp [serveEvents, gatewayStep, h]

/-- C2 witness: the amended theorem at status code 3 with one event queued
behind the poisonous one. -/
theorem C2_witness :
    (gatewayStep [] (GwEvent.smsStatus "T1" 3)).control = Control.panicProgram
    ∧ serveEvents []
        (GwEvent.smsStatus "T1" 3
          :: [GwEvent.smsMessage demoSms (SmsXlatOut.ok demoMsg)])
        = [gatewayStep [] (GwEvent.smsStatus "T1" 3)] :=
  C2_unknown_status_panics_program [] "T1" 3
    [GwEvent.smsMessage demoSms (SmsXlatOut.ok demoMsg)] (by decide)

/-- C8 counterexample: with a configuration from which no SMS provider can
be selected, the program does abort and is not retried, but two of the
three tasks — the Gateway and the XMPP process — have already been started
when the abort happens, refuting "before any of the three tasks
starts". -/
theorem C8_startup_counterexample :
    (mainStartup { smsProvider := none }).2 = none
    ∧ (mainStartup { smsProvider := none }).1
        = [TaskName.gateway, TaskName.xmpp]
    ∧ (mainStartup { smsProvider := none }).1 ≠ [] :=
  ⟨rfl, rfl, by decide⟩

/-- C8 (amended): if no SMS provider can be selected from the
configuration, startup panics and the whole program aborts, not retried —
but the abort happens while starting the HTTP process, after the Gateway
and XMPP tasks have already been started and before the HTTP task has. -/
theorem C8_startup_abort_after_gateway_and_xmpp :
    ∀ config : Config, config.smsProvider = none →
      (mainStartup config).2 = none
      ∧ (mainStartup config).1 = [TaskName.gateway, TaskName.xmpp] := by
  intro config h
  constructor <;>
    simp [mainStartup, mainInit, newChan, runGatewayProcess,
      runXmppProcess, runHttpProcess, h]

/-- C8 witness: the amended theorem at the concrete provider-less
configuration. -/
theorem C8_witness :
    (mainStartup { smsProvider := none }).2 = none
    ∧ (mainStartup { smsProvider := none }).1
        = [TaskName.gateway, TaskName.xmpp] :=
  C8_startup_abort_after_gateway_and_xmpp { smsProvider := none } rfl

/-- C3: the Delivery-Receipt Table invariant.  Starting from the empty
table Main creates, after any event trace an entry for a tracking
identifier exists exactly when some event sent an outbound SMS under that
identifier whose originating XMPP message requested a receipt and no
later event observed a Delivered status for it; moreover no event other
than an inbound XMPP message ever creates an entry, and no event other
than a Delivered Status Update ever removes one. -/
theorem C3_receiptFor_invariant :
    (∀ (es : List GwEvent) (id : String),
        (lookupR id (tableAfter [] es)).isSome = pendingReceipt id es)
    ∧ (∀ (t : ReceiptTable) (e : GwEvent) (id : String),
        isXmppEvent e = false → lookupR id t = none →
        lookupR id (gatewayStep t e).receiptFor = none)
    ∧ (∀ (t : ReceiptTable) (e : GwEvent) (id : String),
        isDeliveredStatus e = false → (lookupR id t).isSome = true →
        (lookupR id (gatewayStep t e).receiptFor).isSome = true) := by
  refine ⟨?_, ?_, ?_⟩
  · intro es id
    have h := lookupR_tableAfter es [] id
    simpa [lookupR] using h
  · intro t e id hx hnone
    have h := lookupR_gatewayStep t e id
    have hs : sendsReceiptSms e id = false := by
      cases e with
      | xmppMsg m xlat send => simp [isXmppEvent] at hx
      | smsMessage s xlat => rfl
      | smsStatus i c => rfl
    rw [hs, hnone] at h
    simp at h
    cases hc : lookupR id (gatewayStep t e).receiptFor with
    | none => rfl
    | some v => rw [hc] at h; simp at h
  · intro t e id hd hsome
    have h := lookupR_gatewayStep t e id
    have ho : observesDelivered e id = false := by
      cases e with
      | smsStatus i c =>
        simp only [isDeliveredStatus] at hd
        simp [observesDelivered, hd]
      | smsMessage s xlat => rfl
      | xmppMsg m xlat send => rfl
    rw [ho, hsome] at h
    simpa using h

/-- C3 witness: the invariant evaluated on the demonstration trace, and
the locality parts at one concrete non-XMPP and one concrete
non-Delivered event. -/
theorem C3_witness :
    ((lookupR "T1" (tableAfter [] demoTrace)).isSome
        = pendingReceipt "T1" demoTrace)
    ∧ lookupR "T1"
        (gatewayStep []
          (GwEvent.smsMessage demoSms (SmsXlatOut.ok demoMsg))).receiptFor
        = none
    ∧ (lookupR "T1"
        (gatewayStep [("T1", receiptAck demoMsg)]
          (GwEvent.smsMessage demoSms (SmsXlatOut.ok demoMsg))).receiptFor).isSome
        = true :=
  ⟨C3_receiptFor_invariant.1 demoTrace "T1",
   C3_receiptFor_invariant.2.1 []
     (GwEvent.smsMessage demoSms (SmsXlatOut.ok demoMsg)) "T1" rfl rfl,
   C3_receiptFor_invariant.2.2 [("T1", receiptAck demoMsg)]
     (GwEvent.smsMessage demoSms (SmsXlatOut.ok demoMsg)) "T1" rfl
     (by decide)⟩

/-- C4: whenever the Gateway or the HTTP process dies the supervisor
restarts it with no sleep, whenever the XMPP process dies it sleeps one
second first, and — as long as provider selection succeeds — every finite
sequence of task deaths is fully served, with no restart limit and no
shutdown path. -/
theorem C4_supervisor_restart_policy :
    ∀ (config : Config) (st : SupState) (deaths : List TaskName),
      config.smsProvider.isSome = true →
      ∃ st2 : SupState,
        superviseRun config st deaths
          = some (st2,
              deaths.map (fun d => if d = TaskName.xmpp then 1 else 0)) := by
  intro config st deaths h
  induction deaths generalizing st with
  | nil => exact ⟨st, rfl⟩
  | cons d ds ih =>
    obtain ⟨st1, h1⟩ := superviseStep_isSome config st d h
    obtain ⟨st2, h2⟩ := ih st1
    refine ⟨st2, ?_⟩
    simp only [superviseRun, h1, h2, List.map_cons]

/-- C4 witness: the policy applied to one death of each task under the
demonstration configuration. -/
theorem C4_witness :
    ∃ st2 : SupState,
      superviseRun demoConfig demoState
          [TaskName.gateway, TaskName.http, TaskName.xmpp]
        = some (st2,
            [TaskName.gateway, TaskName.http, TaskName.xmpp].map
              (fun d => if d = TaskName.xmpp then 1 else 0)) :=
  C4_supervisor_restart_policy demoConfig demoState
    [TaskName.gateway, TaskName.http, TaskName.xmpp] rfl

/-- C5: the asymmetric error policy of the dispatch loop.  A failing
SMS-to-XMPP translation posts its error on the event's reply channel and
the loop keeps running, while an inbound XMPP message whose translation
fails with any error other than the ignore sentinel terminates the
Gateway task. -/
theorem C5_error_asymmetry :
    ∀ (t : ReceiptTable) (s : Sms) (e : GoError) (m : XcoMessage)
      (send : SendOut),
      e ≠ ErrIgnoreMessage →
      ((gatewayStep t (GwEvent.smsMessage s (SmsXlatOut.err e))).control
          = Control.cont
        ∧ (gatewayStep t (GwEvent.smsMessage s (SmsXlatOut.err e))).errChPosts
            = [some e])
      ∧ (gatewayStep t (GwEvent.xmppMsg m (XlatOut.err e) send)).control
          = Control.terminateGateway := by
  intro t s e m send h
  cases e with
  | ignoreMessage => exact absurd rfl h
  | other msg => exact ⟨⟨rfl, rfl⟩, rfl⟩

/-- C5 witness: the asymmetry at a concrete non-sentinel error. -/
theorem C5_witness :
    ((gatewayStep []
        (GwEvent.smsMessage demoSms
          (SmsXlatOut.err (GoError.other "boom")))).control = Control.cont
      ∧ (gatewayStep []
          (GwEvent.smsMessage demoSms
            (SmsXlatOut.err (GoError.other "boom")))).errChPosts
          = [some (GoError.other "boom")])
    ∧ (gatewayStep []
        (GwEvent.xmppMsg demoMsg (XlatOut.err (GoError.other "boom"))
          (SendOut.ok "T1"))).control = Control.terminateGateway :=
  C5_error_asymmetry [] demoSms (GoError.other "boom") demoMsg
    (SendOut.ok "T1") (by decide)

/-- C6: a translation result equal to the ignore sentinel is dropped as if
the message never arrived: nothing is logged, nothing is forwarded, the
table is untouched, and the loop continues (no termination, hence no
restart); on the SMS side the reply channel receives success. -/
theorem C6_ignore_sentinel_silent :
    ∀ (t : ReceiptTable) (m : XcoMessage) (send : SendOut) (s : Sms),
      gatewayStep t (GwEvent.xmppMsg m (XlatOut.err ErrIgnoreMessage) send)
        = { receiptFor := t, errChPosts := [], txXmpp := [],
            errorLogs := [], control := Control.cont }
      ∧ gatewayStep t (GwEvent.smsMessage s (SmsXlatOut.err ErrIgnoreMessage))
        = { receiptFor := t, errChPosts := [none], txXmpp := [],
            errorLogs := [], control := Control.cont } :=
  fun _ _ _ _ => ⟨rfl, rfl⟩

/-- C7: for an Inbound Message and for a Status Update with the enumerated
Delivered code, the Gateway posts exactly one outcome on the event's reply
channel. -/
theorem C7_exactly_one_reply :
    ∀ (t : ReceiptTable) (s : Sms) (xlat : SmsXlatOut) (id : String),
      (gatewayStep t (GwEvent.smsMessage s xlat)).errChPosts.length = 1
      ∧ (gatewayStep t (GwEvent.smsStatus id smsDelivered)).errChPosts.length
          = 1 :=
  fun _ _ _ _ => ⟨rfl, rfl⟩

/-- C9: with the mutex making each table operation atomic, Delivered
events for N distinct tracking identifiers executed in any interleaving
against a table holding exactly those N entries each take their own
receipt exactly once and leave the table empty: nothing is lost and
nothing is duplicated. -/
theorem C9_concurrent_delivered_all_processed :
    ∀ (ids perm : List String) (f : String → XcoMessage),
      ids.Nodup → perm.Perm ids →
      deliveredRun (ids.map (fun i => (i, f i))) perm
        = ([], perm.map (fun i => some (f i))) :=
  fun ids perm f h1 h2 => deliveredRun_perm f perm ids h1 h2

/-- C9 witness: two entries, processed in the reversed order. -/
theorem C9_witness :
    deliveredRun (["A", "B"].map (fun i => (i, demoReceiptFun i))) ["B", "A"]
      = ([], ["B", "A"].map (fun i => some (demoReceiptFun i))) :=
  C9_concurrent_delivered_all_processed ["A", "B"] ["B", "A"] demoReceiptFun
    (by decide) (List.Perm.swap "A" "B" [])

/-- C10: Main creates the three handoff channels exactly once (they get
the first three channel identifiers and the startup state's tasks use
exactly them), and every supervised restart keeps the same shared
component and keeps every incarnation on those same channels — so a
sender blocked on a handoff channel when a task dies is facing the very
channel the replacement incarnation serves. -/
theorem C10_handoff_channels_created_once :
    (∀ (config : Config) (started : List TaskName) (st0 : SupState),
        mainStartup config = (started, some st0) →
        usesMainChannels st0
        ∧ st0.sc.receiptFor = [] ∧ st0.sc.rxSmsCh = 0
        ∧ st0.sc.rxXmppCh = 1 ∧ st0.sc.txXmppCh = 2)
    ∧ ∀ (config : Config) (st : SupState) (deaths : List TaskName)
        (st2 : SupState) (ds : List Nat),
        superviseRun config st deaths = some (st2, ds) →
        st2.sc = st.sc ∧ (usesMainChannels st → usesMainChannels st2) := by
  constructor
  · intro config started st0 h
    cases hp : config.smsProvider with
    | none =>
      simp [mainStartup, mainInit, newChan, runGatewayProcess,
        runXmppProcess, runHttpProcess, hp] at h
    | some p =>
      simp only [mainStartup, mainInit, newChan, runGatewayProcess,
        runXmppProcess, runHttpProcess, hp, Prod.mk.injEq,
        Option.some.injEq] at h
      obtain ⟨-, h2⟩ := h
      subst h2
      exact ⟨⟨rfl, rfl, rfl, rfl, rfl⟩, rfl, rfl, rfl, rfl⟩
  · intro config st deaths st2 ds h
    exact superviseRun_preserves config deaths st st2 ds h

/-- C10 witness: the startup state of the demonstration configuration
uses the three original channels, and one concrete Gateway restart keeps
the component and the channel usage intact. -/
theorem C10_witness :
    (usesMainChannels demoStart ∧ demoStart.sc.receiptFor = []
      ∧ demoStart.sc.rxSmsCh = 0 ∧ demoStart.sc.rxXmppCh = 1
      ∧ demoStart.sc.txXmppCh = 2)
    ∧ ({ demoState with
          gatewayInc := { rxSmsCh := 0, rxXmppCh := 1, healthCh := 6 }
          alloc := { next := 7 } } : SupState).sc = demoState.sc
      ∧ (usesMainChannels demoState →
          usesMainChannels
            { demoState with
              gatewayInc := { rxSmsCh := 0, rxXmppCh := 1, healthCh := 6 }
              alloc := { next := 7 } }) :=
  ⟨C10_handoff_channels_created_once.1 demoConfig
      [TaskName.gateway, TaskName.xmpp, TaskName.http] demoStart rfl,
   C10_handoff_channels_created_once.2 demoConfig demoState
      [TaskName.gateway]
      { demoState with
        gatewayInc := { rxSmsCh := 0, rxXmppCh := 1, healthCh := 6 }
        alloc := { next := 7 } } [0] rfl⟩

end SmsOverXmpp
